import Mathlib

/-
Verification of the cache/store coherence behaviour of the Items CRUD HTTP
service (src/main.go): a shallow embedding of its data model, its two integer
parsers (Go strconv.ParseInt with base 0 / bit size 32, and the PostgreSQL
integer input conversion applied to raw string parameters), the in-process
cache map, the backing store, and the five request handlers plus the router.
-/

set_option maxRecDepth 4000

namespace CrudSvc

/-- The domain entity (struct Item, main.go:17-20): integer id, string title. -/
structure Item where
  id : Int
  title : String
deriving DecidableEq

/-- The process-wide cache map `map[int]Item` (main.go:24), embedded as an
association list keyed by id; lookups return the first binding. -/
abbrev Cache := List (Int × Item)

/-- Cache read (`cache[k]` under RLock). -/
def cacheGet (c : Cache) (k : Int) : Option Item :=
  (c.find? (fun p => p.1 == k)).map (fun p => p.2)

/-- Cache insert/overwrite (`cache[k] = v` under Lock). -/
def cachePut (c : Cache) (k : Int) (v : Item) : Cache :=
  (k, v) :: c.filter (fun p => !(p.1 == k))

/-- Cache removal (`delete(cache, k)` under Lock); a no-op when absent. -/
def cacheDel (c : Cache) (k : Int) : Cache :=
  c.filter (fun p => !(p.1 == k))

/-- The backing `items` table: rows (id, title) plus the sequence counter that
generates the next id for `INSERT ... RETURNING id`. -/
structure Store where
  rows : List (Int × String)
  nextId : Int
deriving DecidableEq

/-- `SELECT id, title FROM items WHERE id=$1` with an integer key. -/
def storeFind (st : Store) (n : Int) : Option String :=
  (st.rows.find? (fun p => p.1 == n)).map (fun p => p.2)

/-- `INSERT INTO items (title) VALUES ($1) RETURNING id`. -/
def storeInsert (st : Store) (title : String) : Store × Int :=
  (⟨st.rows ++ [(st.nextId, title)], st.nextId + 1⟩, st.nextId)

/-- `UPDATE items SET title = $1 WHERE id = $2`: rewrites every matching row
(zero or one); reports no error either way. -/
def storeUpdate (st : Store) (n : Int) (title : String) : Store :=
  ⟨st.rows.map (fun p => if p.1 == n then (p.1, title) else p), st.nextId⟩

/-- `DELETE FROM items WHERE id = $1`: removes every matching row (zero or
one); reports no error either way. -/
def storeDelete (st : Store) (n : Int) : Store :=
  ⟨st.rows.filter (fun p => !(p.1 == n)), st.nextId⟩

/-- Error kinds of Go strconv number conversion: ErrSyntax and ErrRange. -/
inductive GoNumErr where
  | synErr
  | rngErr
deriving DecidableEq

/-- Value of a character as a digit, per strconv (0-9, then letters case
folded to 10-35); `none` for a non-alphanumeric character. -/
def goDigitVal (c : Char) : Option Nat :=
  if c.isDigit then some (c.toNat - 48)
  else
    let l := c.toNat ||| 32
    if 97 ≤ l ∧ l ≤ 122 then some (l - 87) else none

/-- The digit-accumulation loop of strconv.ParseUint with bitSize 32 and a
base-0 call (so underscores are consumed and remembered): invalid digit stops
with ErrSyntax and value 0; exceeding 2^32-1 stops at once with ErrRange and
the saturated value; otherwise accumulates.  Returns (value, sawUnderscore,
error). -/
def goUintLoop (base : Nat) : List Char → Nat → Bool → Nat × Bool × Option GoNumErr
  | [], acc, sawU => (acc, sawU, none)
  | c :: rest, acc, sawU =>
    if c = '_' then goUintLoop base rest acc true
    else
      match goDigitVal c with
      | none => (0, sawU, some GoNumErr.synErr)
      | some d =>
        if base ≤ d then (0, sawU, some GoNumErr.synErr)
        else if 4294967295 < acc * base + d then (4294967295, sawU, some GoNumErr.rngErr)
        else goUintLoop base rest (acc * base + d) sawU

/-- States of Go strconv.underscoreOK: start of input, last saw a digit, last
saw an underscore, last saw another character. -/
inductive USaw where
  | start
  | digit
  | under
  | othr
deriving DecidableEq

/-- The scan loop of strconv.underscoreOK: an underscore may appear only
after a digit (or the base prefix) and must be followed by a digit. -/
def uLoop (hex : Bool) : USaw → List Char → Bool
  | saw, [] => decide (saw ≠ USaw.under)
  | saw, c :: rest =>
    if c.isDigit ∨ (hex ∧ 97 ≤ (c.toNat ||| 32) ∧ (c.toNat ||| 32) ≤ 102) then
      uLoop hex USaw.digit rest
    else if c = '_' then
      if saw = USaw.digit then uLoop hex USaw.under rest else false
    else
      if saw = USaw.under then false else uLoop hex USaw.othr rest

/-- strconv.underscoreOK: whether underscores in the original literal (sign
and base prefix included) sit in the positions Go number literal rules allow. -/
def underscoreOK (s : String) : Bool :=
  let cs0 := s.toList
  let cs1 :=
    match cs0 with
    | c :: r => if c = '-' ∨ c = '+' then r else c :: r
    | [] => []
  match cs1 with
  | '0' :: c1 :: r =>
    let l1 := c1.toNat ||| 32
    if l1 = 98 ∨ l1 = 111 ∨ l1 = 120 then uLoop (l1 = 120) USaw.digit r
    else uLoop false USaw.start ('0' :: c1 :: r)
  | cs => uLoop false USaw.start cs

/-- strconv.ParseUint of the unsigned part with base 0 and bitSize 32: base
prefix detection (0b/0o/0x needing a following character, a bare leading 0
meaning octal), the digit loop, then the underscore-position check (applied to
the whole original string s0) when underscores were consumed. -/
def goParseUint32Base0 (s0 : String) (cs : List Char) : Nat × Option GoNumErr :=
  match cs with
  | [] => (0, some GoNumErr.synErr)
  | c0 :: rest0 =>
    let bp : Nat × List Char :=
      if c0 = '0' then
        match rest0 with
        | c1 :: rest1 =>
          let l1 := c1.toNat ||| 32
          if l1 = 98 ∧ rest1 ≠ [] then (2, rest1)
          else if l1 = 111 ∧ rest1 ≠ [] then (8, rest1)
          else if l1 = 120 ∧ rest1 ≠ [] then (16, rest1)
          else (8, rest0)
        | [] => (8, rest0)
      else (10, c0 :: rest0)
    let r := goUintLoop bp.1 bp.2 0 false
    if r.2.2 = some GoNumErr.synErr then (0, some GoNumErr.synErr)
    else if r.2.2 = some GoNumErr.rngErr then (r.1, some GoNumErr.rngErr)
    else if r.2.1 ∧ ¬ underscoreOK s0 then (0, some GoNumErr.synErr)
    else (r.1, none)

/-- The tail of strconv.ParseInt for bitSize 32: propagate a syntax failure
as value 0, clamp to the int32 bounds with ErrRange, otherwise apply the
sign. -/
def goIntFinish (neg : Bool) (r : Nat × Option GoNumErr) : Int × Option GoNumErr :=
  if r.2 = some GoNumErr.synErr then (0, some GoNumErr.synErr)
  else if neg = false ∧ 2147483648 ≤ r.1 then (2147483647, some GoNumErr.rngErr)
  else if neg = true ∧ 2147483648 < r.1 then (-2147483648, some GoNumErr.rngErr)
  else ((if neg then -(r.1 : Int) else (r.1 : Int)), r.2)

/-- strconv.ParseInt(s, 0, 32) as called at main.go:67 and main.go:145, giving
the value the callers observe (they discard the error): empty string or any
syntax failure yields 0; overflow past the int32 range yields the clamped
bound with ErrRange. -/
def goParseInt32 (s : String) : Int × Option GoNumErr :=
  match s.toList with
  | [] => (0, some GoNumErr.synErr)
  | c :: rest =>
    let neg : Bool := c = '-'
    let ds : List Char := if c = '+' ∨ c = '-' then rest else c :: rest
    goIntFinish neg (goParseUint32Base0 s ds)

/-- PostgreSQL integer input conversion (int4in), applied when a raw string
parameter is bound against the integer id column: optional surrounding
whitespace, optional sign, at least one decimal digit, int32 range; `none`
means the statement fails with an input-syntax / out-of-range error. -/
def pgParseInt (s : String) : Option Int :=
  let cs := s.toList.dropWhile Char.isWhitespace
  let p : Bool × List Char :=
    match cs with
    | '-' :: r => (true, r)
    | '+' :: r => (false, r)
    | r => (false, r)
  let digits := p.2.takeWhile Char.isDigit
  let rest := p.2.dropWhile Char.isDigit
  if digits = [] then none
  else if ¬ (rest.all Char.isWhitespace) then none
  else
    let n : Nat := digits.foldl (fun a c => a * 10 + (c.toNat - 48)) 0
    let v : Int := if p.1 then -(n : Int) else (n : Int)
    if v < -2147483648 ∨ 2147483647 < v then none else some v

/-- The message of the driver error produced when PostgreSQL rejects a raw
string bound to the integer id column. -/
def pgIntErrMsg (s : String) : String :=
  "pq: invalid input syntax for type integer: " ++ s

/-- HTTP response bodies the handlers produce: a JSON object for one item, a
JSON array (with `none` standing for a nil slice, which Go encodes as null),
a JSON string, or the plain text written by http.Error. -/
inductive Body where
  | jsonItem (it : Item)
  | jsonArray (items : Option (List Item))
  | jsonString (s : String)
  | text (msg : String)
deriving DecidableEq

/-- An HTTP response: status code and body. -/
structure Response where
  status : Nat
  body : Body
deriving DecidableEq

/-- Request methods distinguished by the router (main.go:176-191). -/
inductive Method where
  | get
  | post
  | put
  | delete
  | other (name : String)
deriving DecidableEq

/-- An incoming request as the handlers observe it: the method, the raw `id`
query parameter (`""` when absent), and the outcome of decoding the JSON body
into an Item (error text on malformed JSON; absent fields decode to the Go
zero values id 0 / title ""). -/
structure Request where
  method : Method
  rawId : String
  body : Except String Item

/-- createItem (main.go:44-63).  `fault` is the store-connectivity failure of
the request's one database call (`none` = the call reaches the store).
Decodes the body (400 on failure), inserts returning the generated id
(overwriting any id the body carried), writes the new item into the cache at
the generated id, responds 201 with the item. -/
def createItem (fault : Option String) (st : Store) (body : Except String Item)
    (c : Cache) : Response × Store × Cache :=
  match body with
  | Except.error e => (⟨400, Body.text e⟩, st, c)
  | Except.ok item =>
    match fault with
    | some m => (⟨500, Body.text m⟩, st, c)
    | none =>
      let res := storeInsert st item.title
      let item2 : Item := ⟨res.2, item.title⟩
      (⟨201, Body.jsonItem item2⟩, res.1, cachePut c item2.id item2)

/-- getItem (main.go:65-94).  The cache is checked at the integer obtained by
strconv.ParseInt(id, 0, 32) with the error discarded (main.go:67); on a hit
the cached item is returned with no store access.  On a miss the store query
is bound to the RAW string `rawId` (main.go:79), so PostgreSQL re-parses it:
failure of that conversion is a store error (500); no matching row is 404;
a row populates the cache at the row's id and is returned with 200. -/
def getItem (fault : Option String) (st : Store) (rawId : String) (c : Cache) :
    Response × Store × Cache :=
  let idInt : Int := (goParseInt32 rawId).1
  match cacheGet c idInt with
  | some itemFromCache => (⟨200, Body.jsonItem itemFromCache⟩, st, c)
  | none =>
    match fault with
    | some m => (⟨500, Body.text m⟩, st, c)
    | none =>
      match pgParseInt rawId with
      | none => (⟨500, Body.text (pgIntErrMsg rawId)⟩, st, c)
      | some n =>
        match storeFind st n with
        | none => (⟨404, Body.text "Item not found"⟩, st, c)
        | some t =>
          let item : Item := ⟨n, t⟩
          (⟨200, Body.jsonItem item⟩, st, cachePut c item.id item)

/-- The row loop of getItems (main.go:104-115): each delivered row either
scans to an item (appended) or fails the scan, aborting with 500; the loop
ends, successfully, when the cursor delivers no further row — also when the
cursor stopped early because of an error the code never inspects. -/
def scanRows : List (Except String Item) → List Item → Except String (List Item)
  | [], acc => Except.ok acc
  | Except.error e :: _, _ => Except.error e
  | Except.ok it :: rest, acc => scanRows rest (acc ++ [it])

/-- getItems (main.go:96-118) over the outcome of `db.Query` — an error, or
the sequence of row events the cursor delivers.  Starts from the non-nil
empty slice `make([]Item, 0)`, so zero rows encode as the empty array, not
null.  The cache is never consulted or written. -/
def getItemsCore (c : Cache) (q : Except String (List (Except String Item))) :
    Response × Cache :=
  match q with
  | Except.error m => (⟨500, Body.text m⟩, c)
  | Except.ok evs =>
    match scanRows evs [] with
    | Except.error e => (⟨500, Body.text e⟩, c)
    | Except.ok items => (⟨200, Body.jsonArray (some items)⟩, c)

/-- The row events `SELECT id, title FROM items` delivers when the connection
is healthy and every row scans: one successful event per stored row. -/
def rowEvents (fault : Option String) (st : Store) :
    Except String (List (Except String Item)) :=
  match fault with
  | some m => Except.error m
  | none => Except.ok ((st.rows.map (fun p => (⟨p.1, p.2⟩ : Item))).map Except.ok)

/-- getItems on a healthy full scan of the store. -/
def getItems (fault : Option String) (st : Store) (c : Cache) : Response × Cache :=
  getItemsCore c (rowEvents fault st)

/-- updateItem (main.go:120-141).  Decodes the body (400 on failure), then
executes the UPDATE with the title and the RAW query-string id (main.go:130),
so PostgreSQL re-parses the id: conversion failure is a store error (500).
On success — matched rows never examined — it writes `cache[item.ID] = item`
(main.go:136), i.e. the cache key and value come from the DECODED BODY, not
from the query parameter, and responds 200 with a confirmation string. -/
def updateItem (fault : Option String) (st : Store) (rawId : String)
    (body : Except String Item) (c : Cache) : Response × Store × Cache :=
  match body with
  | Except.error e => (⟨400, Body.text e⟩, st, c)
  | Except.ok item =>
    match fault with
    | some m => (⟨500, Body.text m⟩, st, c)
    | none =>
      match pgParseInt rawId with
      | none => (⟨500, Body.text (pgIntErrMsg rawId)⟩, st, c)
      | some n =>
        (⟨200, Body.jsonString "Item updated successfully"⟩,
          storeUpdate st n item.title, cachePut c item.id item)

/-- deleteItem (main.go:143-157).  Parses the query id with
strconv.ParseInt(·, 0, 32), error discarded (main.go:145), and binds the
resulting int64 to the DELETE — so the statement itself cannot fail on a
malformed id.  On success — matched rows never examined — removes that id
from the cache and responds 200 with a confirmation string. -/
def deleteItem (fault : Option String) (st : Store) (rawId : String) (c : Cache) :
    Response × Store × Cache :=
  let idInt : Int := (goParseInt32 rawId).1
  match fault with
  | some m => (⟨500, Body.text m⟩, st, c)
  | none =>
    (⟨200, Body.jsonString "Item deleted successfully"⟩,
      storeDelete st idInt, cacheDel c idInt)

/-- itemsHandler (main.go:173-192): dispatches on the method, and for GET on
whether the `id` query parameter is the empty string; any other method gets
405 with no handler invoked. -/
def itemsHandler (fault : Option String) (st : Store) (req : Request) (c : Cache) :
    Response × Store × Cache :=
  match req.method with
  | Method.post => createItem fault st req.body c
  | Method.get =>
    if req.rawId = "" then
      ((getItems fault st c).1, st, (getItems fault st c).2)
    else getItem fault st req.rawId c
  | Method.put => updateItem fault st req.rawId req.body c
  | Method.delete => deleteItem fault st req.rawId c
  | Method.other _ => (⟨405, Body.text "Method not Allowed"⟩, st, c)

theorem cacheGet_cachePut_self (c : Cache) (k : Int) (v : Item) :
    cacheGet (cachePut c k v) k = some v := by
  simp [cacheGet, cachePut, List.find?]

theorem find?_filter_out {α : Type} (l : List (Int × α)) (k : Int) :
    (l.filter (fun p => !(p.1 == k))).find? (fun p => p.1 == k) = none := by
  induction l with
  | nil => rfl
  | cons p t ih =>
    by_cases h : p.1 = k
    · simp [List.filter_cons, h, ih]
    · simp [List.filter_cons, h, List.find?_cons, ih]

theorem cacheGet_cacheDel_self (c : Cache) (k : Int) :
    cacheGet (cacheDel c k) k = none := by
  simp [cacheGet, cacheDel, find?_filter_out]

theorem storeFind_storeDelete_self (st : Store) (n : Int) :
    storeFind (storeDelete st n) n = none := by
  simp [storeFind, storeDelete, find?_filter_out]

theorem find?_map_upd_of_none {α : Type} (l : List (Int × α)) (k : Int) (t : α)
    (h : l.find? (fun p => p.1 == k) = none) :
    (l.map (fun p => if p.1 == k then (p.1, t) else p)).find? (fun p => p.1 == k) = none := by
  rw [List.find?_eq_none] at h ⊢
  intro p hp
  rcases List.mem_map.mp hp with ⟨q, hq, rfl⟩
  have hq2 := h q hq
  by_cases hk : q.1 = k
  · simp [hk] at hq2
  · simp [hk]

theorem storeFind_storeUpdate_of_none (st : Store) (n : Int) (t : String)
    (h : storeFind st n = none) : storeFind (storeUpdate st n t) n = none := by
  have hf : st.rows.find? (fun p => p.1 == n) = none := by
    unfold storeFind at h
    cases hq : st.rows.find? (fun p => p.1 == n) with
    | none => rfl
    | some p => rw [hq] at h; simp at h
  simp only [storeFind, storeUpdate]
  rw [find?_map_upd_of_none st.rows n t hf]
  rfl

theorem scanRows_map_ok (l acc : List Item) :
    scanRows (l.map Except.ok) acc = Except.ok (acc ++ l) := by
  induction l generalizing acc with
  | nil => simp [scanRows]
  | cons a l ih => simp [scanRows, ih, List.append_assoc]

theorem scanRows_scan_error (l : List Item) (e : String)
    (rest : List (Except String Item)) (acc : List Item) :
    scanRows (l.map Except.ok ++ Except.error e :: rest) acc = Except.error e := by
  induction l generalizing acc with
  | nil => simp [scanRows]
  | cons a l ih => simp [scanRows, ih]

theorem getItemsCore_snd (c : Cache) (q : Except String (List (Except String Item))) :
    (getItemsCore c q).2 = c := by
  cases q with
  | error m => rfl
  | ok evs =>
    cases h : scanRows evs [] with
    | error e => simp [getItemsCore, h]
    | ok items => simp [getItemsCore, h]

theorem goIntFinish_val_of_synErr (neg : Bool) (r : Nat × Option GoNumErr)
    (h : (goIntFinish neg r).2 = some GoNumErr.synErr) : (goIntFinish neg r).1 = 0 := by
  unfold goIntFinish at h ⊢
  split_ifs at h ⊢ with h1 h2 h3 h4
  · rfl
  · simp at h
  · simp at h
  · exact absurd h h1
  · exact absurd h h1

theorem goParseInt32_val_of_synErr (s : String)
    (h : (goParseInt32 s).2 = some GoNumErr.synErr) : (goParseInt32 s).1 = 0 := by
  unfold goParseInt32 at h ⊢
  cases hcs : s.toList with
  | nil => simp [hcs]
  | cons c rest =>
    simp only [hcs] at h ⊢
    exact goIntFinish_val_of_synErr _ _ h

/-- Claim C2 (confirmed): for every PUT whose body decodes and whose store
update succeeds, the cache entry is keyed by the id of the DECODED BODY (the
Go zero value 0 when the body omits id) with value (body id, body title); the
query-parameter id reaches only the store UPDATE statement, so cache key and
updated row can differ in one request. -/
theorem updateItem_cache_keyed_by_body_id (st : Store) (s : String) (n : Int)
    (item : Item) (c : Cache) (hpg : pgParseInt s = some n) :
    updateItem none st s (Except.ok item) c =
      (⟨200, Body.jsonString "Item updated successfully"⟩,
        storeUpdate st n item.title, cachePut c item.id item) := by
  simp [updateItem, hpg]

/-- Witness for updateItem_cache_keyed_by_body_id: query id 7, body id 3 —
the row update targets 7 while the cache write lands at 3. -/
theorem updateItem_cache_keyed_by_body_id_wit :
    updateItem none ⟨[], 1⟩ "7" (Except.ok ⟨3, "t"⟩) [] =
      (⟨200, Body.jsonString "Item updated successfully"⟩,
        storeUpdate ⟨[], 1⟩ 7 "t", cachePut [] 3 ⟨3, "t"⟩) :=
  updateItem_cache_keyed_by_body_id ⟨[], 1⟩ "7" 7 ⟨3, "t"⟩ [] (by decide)

/-- Claim C1 counterexample: PUT ?id=5 with body decoding to (id 0, title x)
— the body omitted id, so Go decoded the zero value — succeeds with 200, yet
the resulting cache has NO entry at the query id 5: the entry lands at the
body id 0.  This refutes the claim that the handler ignores the body id and
writes the cache at the query id. -/
theorem updateItem_cache_not_query_keyed_cex :
    (updateItem none ⟨[], 1⟩ "5" (Except.ok ⟨0, "x"⟩) []).1.status = 200 ∧
    cacheGet (updateItem none ⟨[], 1⟩ "5" (Except.ok ⟨0, "x"⟩) []).2.2 5 = none ∧
    cacheGet (updateItem none ⟨[], 1⟩ "5" (Except.ok ⟨0, "x"⟩) []).2.2 0 =
      some ⟨0, "x"⟩ :=
  ⟨rfl, rfl, rfl⟩

/-- Claim C1 as amended: the phantom cache entry is keyed by the BODY id, not
the query id.  When the decoded body carries the same id n as the query
parameter, a successful PUT for an id with no store row still writes cache
entry (n, title); the store still has no row n; and a subsequent GET with the
same raw id returns 200 with the just-set title from the cache, whatever the
store then holds. -/
theorem updateItem_phantom_at_body_id (s : String) (n : Int) (title : String)
    (st st2 : Store) (f2 : Option String) (c : Cache)
    (hpg : pgParseInt s = some n) (hgo : (goParseInt32 s).1 = n)
    (hrow : storeFind st n = none) :
    (updateItem none st s (Except.ok ⟨n, title⟩) c).1.status = 200 ∧
    storeFind (updateItem none st s (Except.ok ⟨n, title⟩) c).2.1 n = none ∧
    cacheGet (updateItem none st s (Except.ok ⟨n, title⟩) c).2.2 n = some ⟨n, title⟩ ∧
    getItem f2 st2 s (updateItem none st s (Except.ok ⟨n, title⟩) c).2.2 =
      (⟨200, Body.jsonItem ⟨n, title⟩⟩, st2,
        (updateItem none st s (Except.ok ⟨n, title⟩) c).2.2) := by
  have hu : updateItem none st s (Except.ok ⟨n, title⟩) c =
      (⟨200, Body.jsonString "Item updated successfully"⟩, storeUpdate st n title,
        cachePut c n ⟨n, title⟩) := by
    simp [updateItem, hpg]
  rw [hu]
  refine ⟨rfl, storeFind_storeUpdate_of_none st n title hrow,
    cacheGet_cachePut_self c n ⟨n, title⟩, ?_⟩
  simp [getItem, hgo, cacheGet_cachePut_self]

/-- Witness for updateItem_phantom_at_body_id: PUT ?id=5 body (5, x) against
an empty store, then GET ?id=5 against an empty store. -/
theorem updateItem_phantom_at_body_id_wit :
    (updateItem none ⟨[], 1⟩ "5" (Except.ok ⟨5, "x"⟩) []).1.status = 200 ∧
    storeFind (updateItem none ⟨[], 1⟩ "5" (Except.ok ⟨5, "x"⟩) []).2.1 5 = none ∧
    cacheGet (updateItem none ⟨[], 1⟩ "5" (Except.ok ⟨5, "x"⟩) []).2.2 5 =
      some ⟨5, "x"⟩ ∧
    getItem none ⟨[], 1⟩ "5" (updateItem none ⟨[], 1⟩ "5" (Except.ok ⟨5, "x"⟩) []).2.2 =
      (⟨200, Body.jsonItem ⟨5, "x"⟩⟩, ⟨[], 1⟩,
        (updateItem none ⟨[], 1⟩ "5" (Except.ok ⟨5, "x"⟩) []).2.2) :=
  updateItem_phantom_at_body_id "5" 5 "x" ⟨[], 1⟩ ⟨[], 1⟩ none []
    (by decide) (by decide) (by decide)

/-- Claim C3 (confirmed): POST assigns the next store id and caches the new
item; a subsequent GET for that id is served from the cache with the same
(id, title) and without any store access — the response is the same whatever
the store state (the row may have been removed out-of-band) and even if the
store connection is down at that moment; the cache is not changed by the GET. -/
theorem post_then_get_served_from_cache (title : String) (bid : Int) (c : Cache)
    (st : Store) (s : String) (hs : (goParseInt32 s).1 = st.nextId) :
    (createItem none st (Except.ok ⟨bid, title⟩) c).1 =
        ⟨201, Body.jsonItem ⟨st.nextId, title⟩⟩ ∧
    ∀ (f2 : Option String) (st2 : Store),
      getItem f2 st2 s (createItem none st (Except.ok ⟨bid, title⟩) c).2.2 =
        (⟨200, Body.jsonItem ⟨st.nextId, title⟩⟩, st2,
          (createItem none st (Except.ok ⟨bid, title⟩) c).2.2) := by
  have hc : createItem none st (Except.ok ⟨bid, title⟩) c =
      (⟨201, Body.jsonItem ⟨st.nextId, title⟩⟩,
        ⟨st.rows ++ [(st.nextId, title)], st.nextId + 1⟩,
        cachePut c st.nextId ⟨st.nextId, title⟩) := by
    simp [createItem, storeInsert]
  rw [hc]
  refine ⟨rfl, ?_⟩
  intro f2 st2
  simp [getItem, hs, cacheGet_cachePut_self]

/-- Witness for post_then_get_served_from_cache: POST into the empty store
(assigned id 1), then GET ?id=1 while the store is empty again and the
connection is down — still 200 with the cached item. -/
theorem post_then_get_served_from_cache_wit :
    getItem (some "connection refused") ⟨[], 2⟩ "1"
        (createItem none ⟨[], 1⟩ (Except.ok ⟨0, "t"⟩) []).2.2 =
      (⟨200, Body.jsonItem ⟨1, "t"⟩⟩, ⟨[], 2⟩,
        (createItem none ⟨[], 1⟩ (Except.ok ⟨0, "t"⟩) []).2.2) :=
  (post_then_get_served_from_cache "t" 0 [] ⟨[], 1⟩ "1" (by decide)).2
    (some "connection refused") ⟨[], 2⟩

/-- Claim C4 (confirmed): whenever the store call of a request fails, the
handler returns before any cache write, leaving the cache exactly as it was:
POST on store failure answers 500 with the cache untouched; GET (on a cache
miss) answers 500 on a connection failure and 404 on no-such-row, in both
cases without populating the cache; read-all, PUT and DELETE on store failure
answer 500 with the cache untouched. -/
theorem store_failure_leaves_cache_untouched (m : String) (st : Store) (c : Cache)
    (s : String) (item : Item) (n : Int) :
    createItem (some m) st (Except.ok item) c = (⟨500, Body.text m⟩, st, c) ∧
    (cacheGet c (goParseInt32 s).1 = none →
      getItem (some m) st s c = (⟨500, Body.text m⟩, st, c)) ∧
    (cacheGet c (goParseInt32 s).1 = none → pgParseInt s = some n →
      storeFind st n = none →
      getItem none st s c = (⟨404, Body.text "Item not found"⟩, st, c)) ∧
    getItemsCore c (Except.error m) = (⟨500, Body.text m⟩, c) ∧
    updateItem (some m) st s (Except.ok item) c = (⟨500, Body.text m⟩, st, c) ∧
    deleteItem (some m) st s c = (⟨500, Body.text m⟩, st, c) := by
  refine ⟨by simp [createItem], ?_, ?_, rfl, by simp [updateItem], by simp [deleteItem]⟩
  · intro hm
    simp [getItem, hm]
  · intro hm hpg hrow
    simp [getItem, hm, hpg, hrow]

/-- Witness for store_failure_leaves_cache_untouched: GET ?id=9 against a
store with no row 9 and an empty cache — 404 and the cache stays empty. -/
theorem store_failure_leaves_cache_untouched_wit :
    getItem none ⟨[], 1⟩ "9" [] = (⟨404, Body.text "Item not found"⟩, ⟨[], 1⟩, []) :=
  (store_failure_leaves_cache_untouched "boom" ⟨[], 1⟩ [] "9" ⟨1, "t"⟩ 9).2.2.1
    (by decide) (by decide) (by decide)

/-- Claim C5 counterexample: GET ?id=abc against a store CONTAINING row 0.
Were the store queried for the zero-value id 0 (as the claim states), the
response would be 200 with that row; instead the raw string abc is bound to
the query, PostgreSQL rejects it, and the handler answers 500. -/
theorem getItem_store_gets_raw_string_cex :
    getItem none ⟨[((0 : Int), "zero")], 1⟩ "abc" [] =
      (⟨500, Body.text (pgIntErrMsg "abc")⟩, ⟨[((0 : Int), "zero")], 1⟩, []) := by
  rfl

/-- Claim C5 as amended: for a query id that Go fails to parse (syntax
error), only the CACHE check uses the zero-value id 0 — a cached entry at 0
is served; on a cache miss the store query receives the raw unparsed string,
and when PostgreSQL cannot parse it either the request fails 500 as a store
error instead of looking up id 0. -/
theorem getItem_unparseable_id_behavior (s : String) (st : Store) (c : Cache)
    (it : Item) (hsyn : (goParseInt32 s).2 = some GoNumErr.synErr) :
    (cacheGet c 0 = some it → getItem none st s c = (⟨200, Body.jsonItem it⟩, st, c)) ∧
    (cacheGet c 0 = none → pgParseInt s = none →
      getItem none st s c = (⟨500, Body.text (pgIntErrMsg s)⟩, st, c)) := by
  have h0 : (goParseInt32 s).1 = 0 := goParseInt32_val_of_synErr s hsyn
  constructor
  · intro hhit
    simp [getItem, h0, hhit]
  · intro hmiss hpg
    simp [getItem, h0, hmiss, hpg]

/-- Witness for getItem_unparseable_id_behavior: GET ?id=abc, empty cache —
500 from the store rejecting the raw string. -/
theorem getItem_unparseable_id_behavior_wit :
    getItem none ⟨[], 1⟩ "abc" [] =
      (⟨500, Body.text (pgIntErrMsg "abc")⟩, ⟨[], 1⟩, []) :=
  (getItem_unparseable_id_behavior "abc" ⟨[], 1⟩ [] ⟨0, "z"⟩ (by decide)).2
    (by decide) (by decide)

/-- Claim C6 (confirmed): a PUT whose body decodes and whose statement
executes, and any DELETE whose statement executes, answer 200 with their
confirmation message for EVERY store state — the store is universally
quantified, so the response is the same whether the statement matched one
row or none. -/
theorem update_delete_success_always_200 (st : Store) (s : String) (n : Int)
    (item : Item) (c : Cache) (hpg : pgParseInt s = some n) :
    (updateItem none st s (Except.ok item) c).1 =
      ⟨200, Body.jsonString "Item updated successfully"⟩ ∧
    (deleteItem none st s c).1 =
      ⟨200, Body.jsonString "Item deleted successfully"⟩ := by
  constructor
  · simp [updateItem, hpg]
  · simp [deleteItem]

/-- Witness for update_delete_success_always_200: PUT and DELETE ?id=4
against the empty store — zero rows matched, still 200. -/
theorem update_delete_success_always_200_wit :
    (updateItem none ⟨[], 1⟩ "4" (Except.ok ⟨4, "t"⟩) []).1 =
      ⟨200, Body.jsonString "Item updated successfully"⟩ ∧
    (deleteItem none ⟨[], 1⟩ "4" []).1 =
      ⟨200, Body.jsonString "Item deleted successfully"⟩ :=
  update_delete_success_always_200 ⟨[], 1⟩ "4" 4 ⟨4, "t"⟩ [] (by decide)

/-- Claim C7 (confirmed): after a successful DELETE ?id=n the cache holds no
entry for n (removal is a no-op when absent), so a GET ?id=n with no
intervening write misses the cache, falls through to the store — which no
longer has row n — and answers 404 without touching the cache. -/
theorem delete_then_get_falls_through_404 (st : Store) (c : Cache) (s : String)
    (n : Int) (hgo : (goParseInt32 s).1 = n) (hpg : pgParseInt s = some n) :
    cacheGet (deleteItem none st s c).2.2 n = none ∧
    getItem none (deleteItem none st s c).2.1 s (deleteItem none st s c).2.2 =
      (⟨404, Body.text "Item not found"⟩, (deleteItem none st s c).2.1,
        (deleteItem none st s c).2.2) := by
  have hd : deleteItem none st s c =
      (⟨200, Body.jsonString "Item deleted successfully"⟩, storeDelete st n,
        cacheDel c n) := by
    simp [deleteItem, hgo]
  rw [hd]
  refine ⟨cacheGet_cacheDel_self c n, ?_⟩
  simp [getItem, hgo, hpg, cacheGet_cacheDel_self, storeFind_storeDelete_self]

/-- Witness for delete_then_get_falls_through_404: DELETE ?id=2 removes the
row and the cached entry, then GET ?id=2 answers 404. -/
theorem delete_then_get_falls_through_404_wit :
    cacheGet (deleteItem none ⟨[((2 : Int), "a")], 3⟩ "2"
        [((2 : Int), (⟨2, "a"⟩ : Item))]).2.2 2 = none ∧
    getItem none (deleteItem none ⟨[((2 : Int), "a")], 3⟩ "2"
          [((2 : Int), (⟨2, "a"⟩ : Item))]).2.1 "2"
        (deleteItem none ⟨[((2 : Int), "a")], 3⟩ "2"
          [((2 : Int), (⟨2, "a"⟩ : Item))]).2.2 =
      (⟨404, Body.text "Item not found"⟩,
        (deleteItem none ⟨[((2 : Int), "a")], 3⟩ "2"
          [((2 : Int), (⟨2, "a"⟩ : Item))]).2.1,
        (deleteItem none ⟨[((2 : Int), "a")], 3⟩ "2"
          [((2 : Int), (⟨2, "a"⟩ : Item))]).2.2) :=
  delete_then_get_falls_through_404 ⟨[((2 : Int), "a")], 3⟩
    [((2 : Int), (⟨2, "a"⟩ : Item))] "2" 2 (by decide) (by decide)

/-- Claim C8 (confirmed): the read-all handler never reads or writes the
cache (its cache component is the input cache for every query outcome); a
query failure answers 500; a healthy full scan answers 200 with the store's
rows as a JSON array built from the non-nil empty slice, so an empty store
encodes as the empty array, never as null. -/
theorem getItems_bypasses_cache (c : Cache) (m : String) (st : Store) :
    (∀ q, (getItemsCore c q).2 = c) ∧
    getItemsCore c (Except.error m) = (⟨500, Body.text m⟩, c) ∧
    getItems none st c =
      (⟨200, Body.jsonArray (some (st.rows.map (fun p => (⟨p.1, p.2⟩ : Item))))⟩, c) ∧
    (getItems none ⟨[], st.nextId⟩ c).1.body = Body.jsonArray (some []) := by
  refine ⟨getItemsCore_snd c, rfl, ?_, ?_⟩
  · simp only [getItems, rowEvents, getItemsCore]
    rw [scanRows_map_ok]
    simp
  · simp [getItems, rowEvents, getItemsCore, scanRows]

/-- Claim C9 (confirmed): the router dispatches exactly on the method and on
whether the id query parameter is empty — POST to create, GET without id to
read-all, GET with id to single read, PUT to update, DELETE to delete — and
any other method answers 405 with neither store nor cache touched. -/
theorem itemsHandler_dispatch (fault : Option String) (st : Store) (c : Cache)
    (req : Request) :
    (req.method = Method.post →
      itemsHandler fault st req c = createItem fault st req.body c) ∧
    (req.method = Method.get → req.rawId = "" →
      itemsHandler fault st req c =
        ((getItems fault st c).1, st, (getItems fault st c).2)) ∧
    (req.method = Method.get → req.rawId ≠ "" →
      itemsHandler fault st req c = getItem fault st req.rawId c) ∧
    (req.method = Method.put →
      itemsHandler fault st req c = updateItem fault st req.rawId req.body c) ∧
    (req.method = Method.delete →
      itemsHandler fault st req c = deleteItem fault st req.rawId c) ∧
    (∀ ms, req.method = Method.other ms →
      itemsHandler fault st req c = (⟨405, Body.text "Method not Allowed"⟩, st, c)) := by
  refine ⟨?_, ?_, ?_, ?_, ?_, ?_⟩
  · intro h
    simp [itemsHandler, h]
  · intro h hid
    simp [itemsHandler, h, hid]
  · intro h hid
    simp [itemsHandler, h, hid]
  · intro h
    simp [itemsHandler, h]
  · intro h
    simp [itemsHandler, h]
  · intro ms h
    simp [itemsHandler, h]

/-- Witness for itemsHandler_dispatch: a PATCH request answers 405 and leaves
store and cache untouched. -/
theorem itemsHandler_dispatch_wit :
    itemsHandler none ⟨[], 1⟩ ⟨Method.other "PATCH", "", Except.error "e"⟩ [] =
      (⟨405, Body.text "Method not Allowed"⟩, ⟨[], 1⟩, []) :=
  (itemsHandler_dispatch none ⟨[], 1⟩ []
    ⟨Method.other "PATCH", "", Except.error "e"⟩).2.2.2.2.2 "PATCH" rfl

/-- Claim C10 (confirmed): if the row cursor stops delivering rows early —
the code never distinguishes an erroring cursor from an exhausted one — the
loop exits normally and the handler answers 200 with exactly the rows read
before the stop (a truncated prefix of the full row set); by contrast a
per-row scan failure aborts the request with 500. -/
theorem getItems_truncated_cursor_200 (c : Cache) (full : List Item) (k : Nat)
    (e : String) (rest : List (Except String Item)) :
    getItemsCore c (Except.ok ((full.take k).map Except.ok)) =
      (⟨200, Body.jsonArray (some (full.take k))⟩, c) ∧
    getItemsCore c (Except.ok (full.map Except.ok ++ Except.error e :: rest)) =
      (⟨500, Body.text e⟩, c) := by
  constructor
  · simp only [getItemsCore]
    rw [scanRows_map_ok]
    simp
  · simp only [getItemsCore]
    rw [scanRows_scan_error]

end CrudSvc
